import Mathlib

/-!
Shallow embedding of the parking-management-system repository
(`payment.py`, `car_exit.py`, `app.py`) and proofs about its
payment, reconciliation and security-escalation logic.

Conventions of the embedding:
* a CSV log file is a `List` of typed rows; a possibly-missing file is an
  `Option (List _)` (`none` = the file does not exist on disk);
* timestamps are rationals measured in minutes; a row's parsed entry
  timestamp is `Option ℚ` (`none` = `datetime.strptime` raised `ValueError`);
* I/O failures that the Python code catches are made explicit oracle
  parameters (`exc`, `writeOk`, `readErr`);
* machine integers: Python integers are unbounded, so `ℤ`/`ℕ` are exact.
-/

/- Batteries marks the `Rat` arithmetic operations `@[irreducible]`; restore
kernel reducibility so that concrete evaluations can go through `decide`. -/
attribute [local semireducible] Rat.sub Rat.add Rat.mul Rat.inv

/-- One data row of `plates_log.csv` (header
`Plate Number, Payment Status, Timestamp`).  `time` is the parsed entry
timestamp in minutes; `none` models an unparsable timestamp string. -/
structure Row where
  plate : String
  status : String
  time : Option ℚ
deriving DecidableEq

/-- One data row of `exit_log.csv` as far as the code reads it:
`app.py` only ever reads the `Plate Number` column, `car_exit.py` writes
`exit_type` as `"AUTHORIZED"` or `"UNAUTHORIZED"`.  The remaining columns
(entry/exit time, duration, amount) are never read back by the programs. -/
structure ExitRow where
  plate : String
  exit_type : String
deriving DecidableEq

/-- `HOURLY_RATE = 500` (payment.py line 11). -/
def HOURLY_RATE : ℤ := 500

/-- `MINIMUM_CHARGE = 500` (payment.py line 12). -/
def MINIMUM_CHARGE : ℤ := 500

/-- Accumulator of the row loop in `calculate_charges` (payment.py 40-72). -/
structure ChargeAcc where
  total_charge : ℤ
  unpaid_sessions : ℕ
  total_duration_minutes : ℚ
deriving DecidableEq

/-- One iteration of the `for row in reader` loop of `calculate_charges`
(payment.py 50-72): rows of the queried plate with `Payment Status == '0'`
and a parsable timestamp add their elapsed minutes to the duration total;
only when the elapsed minutes are strictly positive is
`max(ceil(minutes/60) * HOURLY_RATE, MINIMUM_CHARGE)` added and the
session counted. -/
def chargeStep (plate : String) (now : ℚ) (acc : ChargeAcc) (row : Row) : ChargeAcc :=
  if row.plate = plate ∧ row.status = "0" then
    match row.time with
    | none => acc
    | some entry =>
      let minutes : ℚ := now - entry
      let acc1 : ChargeAcc :=
        { acc with total_duration_minutes := acc.total_duration_minutes + minutes }
      if 0 < minutes then
        { acc1 with
            total_charge :=
              acc1.total_charge + max (⌈minutes / 60⌉ * HOURLY_RATE) MINIMUM_CHARGE,
            unpaid_sessions := acc1.unpaid_sessions + 1 }
      else acc1
  else acc

/-- Two-digit zero padding of `f"{minutes:02d}"` for the duration string. -/
def pad2 (m : ℤ) : String :=
  if 0 ≤ m ∧ m < 10 then "0" ++ toString m else toString m

/-- The duration string `f"{hours}:{minutes:02d}:00"` built in
`calculate_charges` (payment.py 75-78) from the float
`total_duration_minutes`: `hours = int(tdm // 60)`,
`minutes = int(tdm % 60)` (Python float floor-division and modulo,
truncated to int; the function is only applied to positive totals). -/
def format_duration (tdm : ℚ) : String :=
  let hours : ℤ := ⌊tdm / 60⌋
  let mins : ℤ := ⌊tdm - 60 * (⌊tdm / 60⌋ : ℚ)⌋
  toString hours ++ ":" ++ pad2 mins ++ ":00"

/-- `calculate_charges(plate_number)` (payment.py 35-87).  Input `file` is
the current content of `plates_log.csv` (`none` = missing, returning
`(0, 0, "No records")`), `now` is `datetime.now()` in minutes.  Returns
`(total_charge, unpaid_sessions, duration_str)`. -/
def calculate_charges (file : Option (List Row)) (plate : String) (now : ℚ) :
    ℤ × ℕ × String :=
  match file with
  | none => (0, 0, "No records")
  | some rows =>
    let acc := rows.foldl (chargeStep plate now) ⟨0, 0, 0⟩
    let dur :=
      if 0 < acc.total_duration_minutes then format_duration acc.total_duration_minutes
      else "No active sessions"
    (acc.total_charge, acc.unpaid_sessions, dur)

/-- The per-row rewrite of `update_csv` (payment.py 101-105): rows of the
queried plate with `Payment Status == '0'` get status `'1'`, every other
row is appended back unchanged. -/
def flipRow (plate : String) (row : Row) : Row :=
  if row.plate = plate ∧ row.status = "0" then { row with status := "1" } else row

/-- `update_csv(plate_number)` (payment.py 89-117).  `writeOk` is the oracle
for the `try` block succeeding: on `false` the exception handler returns
`False` (the read-back table content is then whatever was on disk; the
write-once-back never happened, so the table is modelled unchanged).
Missing file returns `False`.  Returns `(success, new file content)`. -/
def update_csv (writeOk : Bool) (file : Option (List Row)) (plate : String) :
    Bool × Option (List Row) :=
  match file with
  | none => (false, none)
  | some rows =>
    if writeOk then (true, some (rows.map (flipRow plate)))
    else (false, some rows)

/-- `process_payment(plate_number, current_balance)` (payment.py 119-151).
`exc` is the oracle for the outer `try` raising (`some e` = exception text
`e`, handled by returning `PROCESSING_ERROR` with the balance unchanged).
Returns `(status string, new balance, duration string, new file content)`. -/
def process_payment (exc : Option String) (writeOk : Bool)
    (file : Option (List Row)) (plate : String) (balance : ℤ) (now : ℚ) :
    String × ℤ × String × Option (List Row) :=
  match exc with
  | some e => ("PROCESSING_ERROR: " ++ e, balance, "Error", file)
  | none =>
    let tc := calculate_charges file plate now
    if tc.2.1 = 0 then ("NO_PARKING_SESSIONS", balance, tc.2.2, file)
    else if balance < tc.1 then
      ("INSUFFICIENT_FUNDS:" ++ toString tc.1 ++ "," ++ toString balance,
        balance, tc.2.2, file)
    else
      let upd := update_csv writeOk file plate
      if upd.1 then ("PAYMENT_SUCCESS", balance - tc.1, tc.2.2, upd.2)
      else ("UPDATE_ERROR", balance, tc.2.2, upd.2)

/-! ## car_exit.py -/

/-- `MAX_UNAUTHORIZED_ATTEMPTS = 3` (car_exit.py line 35). -/
def MAX_UNAUTHORIZED_ATTEMPTS : ℕ := 3

/-- The `unauthorized_attempts` dict of car_exit.py (line 36): per-plate
attempt counter; `none` = no entry for that plate. -/
def AttemptMap : Type := String → Option ℕ

/-- `is_payment_complete(plate_number)` (car_exit.py 85-108): `True` iff some
row of `plates_log.csv` has the queried plate with `Payment Status == '1'`.
A missing file returns `False`; `readErr` is the oracle for the `try` block
raising while reading, whose handler also returns `False`. -/
def is_payment_complete (readErr : Bool) (file : Option (List Row)) (plate : String) :
    Bool :=
  match file with
  | none => false
  | some rows =>
    if readErr then false
    else rows.any fun row => row.plate = plate && row.status = "1"

/-- The data of one alarm activation produced by
`trigger_unauthorized_exit_alarm` (car_exit.py 122-190): the alert type and
action strings written to `security_alerts.csv`, the byte signalled to the
Arduino, whether `generate_incident_report` was invoked, and the attempt
count after the increment. -/
structure AlarmResult where
  alert_type : String
  action_taken : String
  arduino_signal : String
  report : Bool
  attempt_count : ℕ
deriving DecidableEq

/-- `trigger_unauthorized_exit_alarm(plate_number, arduino_conn)`
(car_exit.py 122-190): increments the plate's entry in
`unauthorized_attempts` (creating it at 0 first), then classifies:
count ≥ 3 critical breach with incident report, count ≥ 2 high priority,
otherwise the standard alert.  Returns the alarm data and the updated
counter map. -/
def trigger_unauthorized_exit_alarm (attempts : AttemptMap) (plate : String) :
    AlarmResult × AttemptMap :=
  let count := (attempts plate).getD 0 + 1
  let attempts2 : AttemptMap := fun q => if q = plate then some count else attempts q
  if count ≥ MAX_UNAUTHORIZED_ATTEMPTS then
    (⟨"CRITICAL_SECURITY_BREACH",
      "LOCKDOWN_INITIATED_AFTER_" ++ toString count ++ "_ATTEMPTS", "9", true, count⟩,
      attempts2)
  else if count ≥ 2 then
    (⟨"HIGH_PRIORITY_ALERT", "REPEATED_UNAUTHORIZED_ATTEMPT_" ++ toString count,
      "8", false, count⟩, attempts2)
  else
    (⟨"UNAUTHORIZED_EXIT_ATTEMPT", "ALARM_ACTIVATED_GATE_BLOCKED", "2", false, count⟩,
      attempts2)

/-- `reset_unauthorized_attempts(plate_number)` (car_exit.py 222-226):
deletes the plate's entry from `unauthorized_attempts`. -/
def reset_unauthorized_attempts (attempts : AttemptMap) (plate : String) : AttemptMap :=
  fun q => if q = plate then none else attempts q

/-- Observable outcome of one exit evaluation in the main loop of
car_exit.py (lines 424-444): whether the gate was opened, the exit type
string passed to `log_exit_to_csv`, and the alarm data when denied. -/
structure ExitOutcome where
  granted : Bool
  exit_type : String
  alert : Option AlarmResult
deriving DecidableEq

/-- One exit evaluation of the car_exit.py main loop (lines 424-444): if
`is_payment_complete` holds, the gate is opened, the attempt counter is
reset and an `AUTHORIZED` exit is logged; otherwise
`trigger_unauthorized_exit_alarm` runs and an `UNAUTHORIZED` exit is
logged. -/
def exit_evaluation (readErr : Bool) (file : Option (List Row))
    (attempts : AttemptMap) (plate : String) : ExitOutcome × AttemptMap :=
  if is_payment_complete readErr file plate then
    (⟨true, "AUTHORIZED", none⟩, reset_unauthorized_attempts attempts plate)
  else
    let t := trigger_unauthorized_exit_alarm attempts plate
    (⟨false, "UNAUTHORIZED", some t.1⟩, t.2)

/-! ## app.py -/

/-- The `system_stats` dict of app.py (lines 21-29). -/
structure SystemStats where
  total_vehicles : ℕ
  vehicles_inside : ℕ
  paid_vehicles : ℕ
  pending_payments : ℕ
  vehicles_exited : ℕ
  active_sessions : ℕ
  hourly_rate : ℕ
deriving DecidableEq

/-- Initial value of `system_stats` (app.py lines 21-29). -/
def initial_system_stats : SystemStats :=
  ⟨0, 0, 0, 0, 0, 0, 200⟩

/-- One iteration of the entry-log loop of `update_system_stats`
(app.py 73-81): add the plate to the set and bump the paid counter when
`Payment Status == '1'`, the pending counter otherwise. -/
def entry_scan_step (acc : Finset String × ℕ × ℕ) (row : Row) : Finset String × ℕ × ℕ :=
  (insert row.plate acc.1,
    if row.status = "1" then acc.2.1 + 1 else acc.2.1,
    if row.status = "1" then acc.2.2 else acc.2.2 + 1)

/-- The entry-log loop of `update_system_stats` (app.py 70-81): collects the
set of plates and counts rows with `Payment Status == '1'` as paid, every
other row as pending. -/
def entry_scan (rows : List Row) : Finset String × ℕ × ℕ :=
  rows.foldl entry_scan_step (∅, 0, 0)

/-- One iteration of the exit-log loop of `update_system_stats`
(app.py 87-88): adds the plate of the exit record to the set. -/
def exit_scan_step (acc : Finset String) (row : ExitRow) : Finset String :=
  insert row.plate acc

/-- The exit-log loop of `update_system_stats` (app.py 84-88): collects the
set of plates appearing in `exit_log.csv`, regardless of exit type. -/
def exit_scan (rows : List ExitRow) : Finset String :=
  rows.foldl exit_scan_step ∅

/-- The inner rescan of the active-session loop (app.py 100-105): the plate
has some entry row with `Payment Status == '0'`. -/
def has_pending (rows : List Row) (plate : String) : Bool :=
  rows.any fun row => row.plate = plate && row.status = "0"

/-- `update_system_stats()` (app.py 60-118): recomputes every statistic from
the two logs (`none` = the log file does not exist, scanned as empty) and
writes them into `stats`; `hourly_rate` is not touched. -/
def update_system_stats (stats : SystemStats) (sessionFile : Option (List Row))
    (exitFile : Option (List ExitRow)) : SystemStats :=
  let scan := entry_scan (sessionFile.getD [])
  let vehicles := scan.1
  let exited := exit_scan (exitFile.getD [])
  let active :=
    (vehicles.filter fun p => p ∉ exited ∧ has_pending (sessionFile.getD []) p = true).card
  { stats with
      total_vehicles := vehicles.card
      vehicles_inside := (vehicles \ exited).card
      paid_vehicles := scan.2.1
      pending_payments := scan.2.2
      vehicles_exited := exited.card
      active_sessions := active }

/-! ## Helper lemmas -/

/-- A string extended past another string's length differs from it. -/
theorem append_ne_of_shorter (a c b : String) (h : b.length < a.length) : a ++ c ≠ b := by
  intro e
  have h2 := congrArg String.length e
  rw [String.length_append] at h2
  omega

/-- Rows that do not match the plate-and-pending filter leave the charge
accumulator unchanged. -/
theorem chargeStep_skip (p : String) (now : ℚ) (acc : ChargeAcc) (row : Row)
    (h : ¬(row.plate = p ∧ row.status = "0")) : chargeStep p now acc row = acc := by
  simp [chargeStep, h]

/-- The unpaid-session counter never decreases along the charge loop. -/
theorem chargeStep_unpaid_le (p : String) (now : ℚ) (acc : ChargeAcc) (row : Row) :
    acc.unpaid_sessions ≤ (chargeStep p now acc row).unpaid_sessions := by
  unfold chargeStep
  split
  · cases row.time <;> simp
    split <;> simp
  · exact le_rfl

/-- A loop iteration that does not count a session does not charge either. -/
theorem chargeStep_charge_of_unpaid_eq (p : String) (now : ℚ) (acc : ChargeAcc) (row : Row)
    (h : (chargeStep p now acc row).unpaid_sessions = acc.unpaid_sessions) :
    (chargeStep p now acc row).total_charge = acc.total_charge := by
  by_cases hm : row.plate = p ∧ row.status = "0"
  · cases hz : row.time with
    | none => simp [chargeStep, hm, hz]
    | some entry =>
      by_cases hpos : entry < now
      · exfalso
        simp [chargeStep, hm, hz, sub_pos, hpos] at h
      · simp [chargeStep, hm, hz, sub_pos, hpos]
  · simp [chargeStep, hm]

/-- The unpaid-session counter never decreases along the whole charge loop. -/
theorem foldl_chargeStep_unpaid_le (p : String) (now : ℚ) (rows : List Row) (acc : ChargeAcc) :
    acc.unpaid_sessions ≤ (rows.foldl (chargeStep p now) acc).unpaid_sessions := by
  induction rows generalizing acc with
  | nil => exact le_rfl
  | cons row rows ih =>
    exact le_trans (chargeStep_unpaid_le p now acc row) (ih (chargeStep p now acc row))

/-- If the charge loop counts no session it charges nothing. -/
theorem foldl_chargeStep_charge_of_unpaid_eq (p : String) (now : ℚ) (rows : List Row)
    (acc : ChargeAcc)
    (h : (rows.foldl (chargeStep p now) acc).unpaid_sessions = acc.unpaid_sessions) :
    (rows.foldl (chargeStep p now) acc).total_charge = acc.total_charge := by
  induction rows generalizing acc with
  | nil => rfl
  | cons row rows ih =>
    have hstep : (chargeStep p now acc row).unpaid_sessions = acc.unpaid_sessions := by
      have h1 := chargeStep_unpaid_le p now acc row
      have h2 := foldl_chargeStep_unpaid_le p now rows (chargeStep p now acc row)
      simp only [List.foldl_cons] at h
      omega
    have h3 : (rows.foldl (chargeStep p now) (chargeStep p now acc row)).unpaid_sessions
        = (chargeStep p now acc row).unpaid_sessions := by
      simp only [List.foldl_cons] at h
      rw [h, hstep]
    simp only [List.foldl_cons]
    rw [ih (chargeStep p now acc row) h3, chargeStep_charge_of_unpaid_eq p now acc row hstep]

/-- When `calculate_charges` reports zero unpaid sessions the total charge
is zero. -/
theorem calculate_charges_total_of_no_sessions (file : Option (List Row)) (p : String)
    (now : ℚ) (h : (calculate_charges file p now).2.1 = 0) :
    (calculate_charges file p now).1 = 0 := by
  cases file with
  | none => rfl
  | some rows =>
    simp only [calculate_charges] at h ⊢
    exact foldl_chargeStep_charge_of_unpaid_eq p now rows ⟨0, 0, 0⟩ h

/-- A row rewritten by `update_csv` never matches the plate-and-pending
filter again. -/
theorem flipRow_not_pending (p : String) (row : Row) :
    ¬((flipRow p row).plate = p ∧ (flipRow p row).status = "0") := by
  unfold flipRow
  split
  · simp
  · intro hc
    simp_all

/-- A charge loop over rows that all fail the plate-and-pending filter is
the identity. -/
theorem foldl_chargeStep_of_no_match (p : String) (now : ℚ) (rows : List Row)
    (acc : ChargeAcc) (h : ∀ row ∈ rows, ¬(row.plate = p ∧ row.status = "0")) :
    rows.foldl (chargeStep p now) acc = acc := by
  induction rows generalizing acc with
  | nil => rfl
  | cons row rows ih =>
    simp only [List.foldl_cons]
    rw [chargeStep_skip p now acc row (h row (List.mem_cons_self row rows))]
    exact ih acc fun r hr => h r (List.mem_cons_of_mem row hr)

/-- After `update_csv` rewrote the table, `calculate_charges` for that plate
finds nothing to charge. -/
theorem calculate_charges_after_flip (rows : List Row) (p : String) (now : ℚ) :
    calculate_charges (some (rows.map (flipRow p))) p now = (0, 0, "No active sessions") := by
  simp only [calculate_charges]
  rw [foldl_chargeStep_of_no_match p now (rows.map (flipRow p)) ⟨0, 0, 0⟩]
  · simp
  · intro row hrow
    rcases List.mem_map.mp hrow with ⟨r, _, rfl⟩
    exact flipRow_not_pending p r

/-- The exit-log fold collects exactly the plates of the scanned rows. -/
theorem foldl_exit_scan_step (rows : List ExitRow) (s : Finset String) :
    rows.foldl exit_scan_step s = s ∪ (rows.map ExitRow.plate).toFinset := by
  induction rows generalizing s with
  | nil => simp
  | cons r rows ih =>
    simp [exit_scan_step, ih, Finset.insert_union, Finset.union_insert]

/-- The plate component of the entry-log fold collects exactly the plates of
the scanned rows. -/
theorem foldl_entry_scan_step_fst (rows : List Row) (init : Finset String × ℕ × ℕ) :
    (rows.foldl entry_scan_step init).1 = init.1 ∪ (rows.map Row.plate).toFinset := by
  induction rows generalizing init with
  | nil => simp
  | cons r rows ih =>
    simp [entry_scan_step, ih, Finset.insert_union, Finset.union_insert]

/-- `entry_scan` computes the set of distinct session plates. -/
theorem entry_scan_fst (rows : List Row) :
    (entry_scan rows).1 = (rows.map Row.plate).toFinset := by
  simp [entry_scan, foldl_entry_scan_step_fst]

/-- `exit_scan` computes the set of distinct exited plates. -/
theorem exit_scan_eq (rows : List ExitRow) :
    exit_scan rows = (rows.map ExitRow.plate).toFinset := by
  simp [exit_scan, foldl_exit_scan_step]

/-! ## Claim theorems -/

/-- Claim C4 (confirmed): with a non-negative presented balance strictly
below the total owed, `process_payment` returns the response
`INSUFFICIENT_FUNDS:<owed>,<balance>`, the balance unchanged, and the
Session table exactly as it was — no row changes payment status. -/
theorem insufficient_funds_no_mutation (writeOk : Bool) (file : Option (List Row))
    (plate : String) (balance : ℤ) (now : ℚ) (h0 : 0 ≤ balance)
    (hb : balance < (calculate_charges file plate now).1) :
    process_payment none writeOk file plate balance now
      = ("INSUFFICIENT_FUNDS:" ++ toString (calculate_charges file plate now).1
            ++ "," ++ toString balance,
          balance, (calculate_charges file plate now).2.2, file) := by
  have hs : (calculate_charges file plate now).2.1 ≠ 0 := by
    intro hz
    rw [calculate_charges_total_of_no_sessions file plate now hz] at hb
    omega
  simp [process_payment, hs, hb]

/-- Witness for C4 at the spec's own example: balance 400, one pending
30-minute session owing 500. -/
theorem insufficient_funds_no_mutation_witness :
    (0 : ℤ) ≤ 400
    ∧ 400 < (calculate_charges (some [⟨"RAA111A", "0", some 0⟩]) "RAA111A" 30).1
    ∧ process_payment none true (some [⟨"RAA111A", "0", some 0⟩]) "RAA111A" 400 30
        = ("INSUFFICIENT_FUNDS:500,400", 400, "0:30:00", some [⟨"RAA111A", "0", some 0⟩]) :=
  ⟨by decide, by decide,
    (insufficient_funds_no_mutation true (some [⟨"RAA111A", "0", some 0⟩]) "RAA111A" 400 30
        (by decide) (by decide)).trans (by decide)⟩

/-- Claim C7 (confirmed): the Reconciler is a pure function of the log
contents in this embedding, and it is idempotent — recomputing the stats
from unchanged logs returns the identical `SystemStats` value. -/
theorem reconciler_idempotent (stats : SystemStats) (sessionFile : Option (List Row))
    (exitFile : Option (List ExitRow)) :
    update_system_stats (update_system_stats stats sessionFile exitFile) sessionFile exitFile
      = update_system_stats stats sessionFile exitFile := rfl

/-- Claim C8 (confirmed): the exit-authorization payment check fails closed:
a missing Session log returns `False`, and a read error while scanning the
log returns `False`, so the exit is denied. -/
theorem payment_check_fails_closed (readErr : Bool) (file : Option (List Row))
    (plate : String) :
    is_payment_complete readErr none plate = false
    ∧ is_payment_complete true file plate = false := by
  refine ⟨rfl, ?_⟩
  cases file <;> rfl

/-- Claim C10 (confirmed): `process_payment` returns the presented balance
unchanged in every outcome other than `PAYMENT_SUCCESS` — including the
`UPDATE_ERROR` write-back-failure path and the exception path — and on
`PAYMENT_SUCCESS` the new balance is exactly the presented balance minus
the computed total charge. -/
theorem balance_conservation (exc : Option String) (writeOk : Bool)
    (file : Option (List Row)) (plate : String) (balance : ℤ) (now : ℚ) :
    (process_payment exc writeOk file plate balance now).2.1
      = if (process_payment exc writeOk file plate balance now).1 = "PAYMENT_SUCCESS"
        then balance - (calculate_charges file plate now).1
        else balance := by
  cases exc with
  | some e =>
    have hne : ("PROCESSING_ERROR: " ++ e) ≠ "PAYMENT_SUCCESS" :=
      append_ne_of_shorter _ _ _ (by decide)
    simp [process_payment, hne]
  | none =>
    by_cases hs : (calculate_charges file plate now).2.1 = 0
    · simp [process_payment, hs]
    · by_cases hb : balance < (calculate_charges file plate now).1
      · have hne : ("INSUFFICIENT_FUNDS:" ++ toString (calculate_charges file plate now).1
            ++ "," ++ toString balance) ≠ "PAYMENT_SUCCESS" := by
          apply append_ne_of_shorter
          rw [String.length_append, String.length_append]
          have h1 : "PAYMENT_SUCCESS".length = 15 := by decide
          have h2 : "INSUFFICIENT_FUNDS:".length = 19 := by decide
          omega
        simp [process_payment, hs, hb, hne]
      · rcases hu : update_csv writeOk file plate with ⟨ok, file2⟩
        cases ok
        · simp [process_payment, hs, hb, hu]
        · simp [process_payment, hs, hb, hu]

/-- Claim C1, counterexample: a Pending session whose entry timestamp equals
the current time has zero elapsed minutes and is skipped entirely by
`calculate_charges` (the `if minutes > 0` guard), so its charge is `0`,
not `MINIMUM_CHARGE` as the claim states. -/
theorem charge_policy_zero_minutes_counterexample :
    calculate_charges (some [⟨"RAA111A", "0", some 100⟩]) "RAA111A" 100
      = (0, 0, "No active sessions")
    ∧ (calculate_charges (some [⟨"RAA111A", "0", some 100⟩]) "RAA111A" 100).1
        ≠ MINIMUM_CHARGE := by decide

/-- Claim C1 (amended): for every Pending session of the queried plate with
strictly positive elapsed minutes, the per-session charge is
`max(ceil(elapsed_minutes / 60) * hourly_rate, minimum_charge)`; a session
with zero (or negative) eligible elapsed minutes is skipped and incurs no
charge.  A Pending session with 1 elapsed minute is charged exactly
`MINIMUM_CHARGE`, and two Pending sessions of 30 and 90 minutes at
hourly_rate=500 and minimum_charge=500 are charged 500 and 1000 for a
total owed of 1500. -/
theorem charge_policy_amended :
    (∀ (acc : ChargeAcc) (plate : String) (now entry : ℚ) (row : Row),
        row.plate = plate → row.status = "0" → row.time = some entry →
        0 < now - entry →
          (chargeStep plate now acc row).total_charge
            = acc.total_charge + max (⌈(now - entry) / 60⌉ * HOURLY_RATE) MINIMUM_CHARGE
          ∧ (chargeStep plate now acc row).unpaid_sessions = acc.unpaid_sessions + 1)
    ∧ calculate_charges (some [⟨"RAA111A", "0", some 0⟩]) "RAA111A" 1
        = (MINIMUM_CHARGE, 1, "0:01:00")
    ∧ calculate_charges
          (some [⟨"RAA111A", "0", some 70⟩, ⟨"RAA111A", "0", some 10⟩]) "RAA111A" 100
        = (1500, 2, "2:00:00") := by
  refine ⟨?_, by decide, by decide⟩
  intro acc plate now entry row h1 h2 h3 h4
  have h5 : entry < now := sub_pos.mp h4
  constructor <;> simp [chargeStep, h1, h2, h3, sub_pos, h5]

/-- Witness for the amended C1 at a concrete 90-minute Pending session. -/
theorem charge_policy_amended_witness :
    (0 : ℚ) < 90 - 0
    ∧ (chargeStep "RAA111A" 90 ⟨0, 0, 0⟩ ⟨"RAA111A", "0", some 0⟩).total_charge
        = 0 + max (⌈((90 : ℚ) - 0) / 60⌉ * HOURLY_RATE) MINIMUM_CHARGE :=
  ⟨by decide,
    (charge_policy_amended.1 ⟨0, 0, 0⟩ "RAA111A" 90 0 ⟨"RAA111A", "0", some 0⟩ rfl rfl rfl
        (by decide)).1⟩

/-- Claim C2, counterexample: a plate with one Session row and a single
`UNAUTHORIZED` exit record is NOT counted inside by the Reconciler
(`vehicles_inside = 0`), whereas the claim says an Unauthorized ExitRecord
does not remove a plate from the inside count (predicting 1). -/
theorem vehicles_inside_counterexample :
    (update_system_stats initial_system_stats (some [⟨"RAA111A", "0", some 0⟩])
        (some [⟨"RAA111A", "UNAUTHORIZED"⟩])).vehicles_inside = 0
    ∧ (update_system_stats initial_system_stats (some [⟨"RAA111A", "0", some 0⟩])
        (some [⟨"RAA111A", "UNAUTHORIZED"⟩])).vehicles_inside ≠ 1 := by decide

/-- Claim C2 (amended): the Reconciler counts a plate as inside iff it has
at least one Session row and no ExitRecord of ANY type; `vehicles_inside`
is the number of distinct Session plates minus the plates having any
ExitRecord, so an ExitRecord of type Unauthorized also removes a plate
from the inside count. -/
theorem vehicles_inside_amended (stats : SystemStats) (srows : List Row)
    (erows : List ExitRow) :
    (update_system_stats stats (some srows) (some erows)).vehicles_inside
      = ((srows.map Row.plate).toFinset.filter
          fun p => ∀ e ∈ erows, e.plate ≠ p).card := by
  simp only [update_system_stats, Option.getD_some]
  rw [entry_scan_fst, exit_scan_eq, Finset.sdiff_eq_filter]
  apply congrArg
  apply Finset.filter_congr
  intro p _
  simp

/-- Claim C3, counterexample: with one Pending session of zero elapsed
minutes, the presented balance 1000 covers the total owed (0), yet
`process_payment` returns `NO_PARKING_SESSIONS` and leaves the Pending row
unflipped — the zero-minute guard of `calculate_charges` makes the claim
false as stated. -/
theorem payment_success_flips_counterexample :
    (calculate_charges (some [⟨"RAA111A", "0", some 100⟩]) "RAA111A" 100).1 ≤ 1000
    ∧ process_payment none true (some [⟨"RAA111A", "0", some 100⟩]) "RAA111A" 1000 100
        = ("NO_PARKING_SESSIONS", 1000, "No active sessions",
            some [⟨"RAA111A", "0", some 100⟩])
    ∧ (process_payment none true (some [⟨"RAA111A", "0", some 100⟩]) "RAA111A" 1000 100).1
        ≠ "PAYMENT_SUCCESS" := by decide

/-- Claim C3 (amended): when at least one Pending session of the plate has
positive elapsed minutes (the charge loop counted it), the presented
balance covers the total owed, and the table write-back succeeds, payment
authorization flips every Pending row of that plate to Paid and changes no
other row or field (the whole table is rewritten row-for-row), deducts the
total owed from the balance, and re-running authorization for the same
plate immediately afterwards returns `NO_PARKING_SESSIONS` with the
balance unchanged. -/
theorem payment_success_flips_amended (rows : List Row) (plate : String) (balance : ℤ)
    (now : ℚ) (hs : (calculate_charges (some rows) plate now).2.1 ≠ 0)
    (hb : (calculate_charges (some rows) plate now).1 ≤ balance) :
    (process_payment none true (some rows) plate balance now).1 = "PAYMENT_SUCCESS"
    ∧ (process_payment none true (some rows) plate balance now).2.1
        = balance - (calculate_charges (some rows) plate now).1
    ∧ (process_payment none true (some rows) plate balance now).2.2.2
        = some (rows.map (flipRow plate))
    ∧ (∀ row ∈ rows,
        (row.plate = plate ∧ row.status = "0" →
          flipRow plate row = { row with status := "1" })
        ∧ (¬(row.plate = plate ∧ row.status = "0") → flipRow plate row = row))
    ∧ (∀ (balance2 : ℤ) (now2 : ℚ) (writeOk2 : Bool),
        (process_payment none writeOk2 (some (rows.map (flipRow plate)))
            plate balance2 now2).1 = "NO_PARKING_SESSIONS"
        ∧ (process_payment none writeOk2 (some (rows.map (flipRow plate)))
            plate balance2 now2).2.1 = balance2) := by
  have hnb : ¬ balance < (calculate_charges (some rows) plate now).1 := not_lt.mpr hb
  refine ⟨?_, ?_, ?_, ?_, ?_⟩
  · simp [process_payment, hs, hnb, update_csv]
  · simp [process_payment, hs, hnb, update_csv]
  · simp [process_payment, hs, hnb, update_csv]
  · intro row _
    constructor
    · intro hm
      simp [flipRow, hm]
    · intro hm
      simp [flipRow, hm]
  · intro balance2 now2 writeOk2
    have hz := calculate_charges_after_flip rows plate now2
    constructor <;> simp [process_payment, hz]

/-- The counter map returned by the alarm routine: the triggering plate is
bumped by one (from an implicit 0 when absent), all other plates keep
their entries. -/
theorem trigger_attempts (m : AttemptMap) (p : String) :
    (trigger_unauthorized_exit_alarm m p).2
      = fun q => if q = p then some ((m p).getD 0 + 1) else m q := by
  simp only [trigger_unauthorized_exit_alarm]
  split
  · rfl
  · split <;> rfl

/-- Classification of one alarm activation as a function of the plate's
prior attempt count `n`. -/
theorem trigger_alarm_result (m : AttemptMap) (p : String) (n : ℕ)
    (h : (m p).getD 0 = n) :
    (trigger_unauthorized_exit_alarm m p).1
      = if MAX_UNAUTHORIZED_ATTEMPTS ≤ n + 1 then
          ⟨"CRITICAL_SECURITY_BREACH",
            "LOCKDOWN_INITIATED_AFTER_" ++ toString (n + 1) ++ "_ATTEMPTS", "9", true, n + 1⟩
        else if 2 ≤ n + 1 then
          ⟨"HIGH_PRIORITY_ALERT", "REPEATED_UNAUTHORIZED_ATTEMPT_" ++ toString (n + 1),
            "8", false, n + 1⟩
        else
          ⟨"UNAUTHORIZED_EXIT_ATTEMPT", "ALARM_ACTIVATED_GATE_BLOCKED", "2", false, n + 1⟩ := by
  simp only [trigger_unauthorized_exit_alarm, h, ge_iff_le]
  split
  · rfl
  · split <;> rfl

/-- Claim C5 (confirmed): starting from a plate with no counter entry, three
consecutive denied exit evaluations produce the alert tiers
`UNAUTHORIZED_EXIT_ATTEMPT` (count 1, action `ALARM_ACTIVATED_GATE_BLOCKED`),
`HIGH_PRIORITY_ALERT` (count 2) and `CRITICAL_SECURITY_BREACH` (count 3,
action `LOCKDOWN_INITIATED_AFTER_3_ATTEMPTS`) in that order, and an
incident report is generated exactly when the cumulative attempt count
reaches `MAX_UNAUTHORIZED_ATTEMPTS = 3`, never earlier. -/
theorem escalation_three_denials (m : AttemptMap) (p : String) (h : m p = none) :
    (trigger_unauthorized_exit_alarm m p).1
        = ⟨"UNAUTHORIZED_EXIT_ATTEMPT", "ALARM_ACTIVATED_GATE_BLOCKED", "2", false, 1⟩
    ∧ (trigger_unauthorized_exit_alarm (trigger_unauthorized_exit_alarm m p).2 p).1
        = ⟨"HIGH_PRIORITY_ALERT", "REPEATED_UNAUTHORIZED_ATTEMPT_2", "8", false, 2⟩
    ∧ (trigger_unauthorized_exit_alarm
          (trigger_unauthorized_exit_alarm (trigger_unauthorized_exit_alarm m p).2 p).2 p).1
        = ⟨"CRITICAL_SECURITY_BREACH", "LOCKDOWN_INITIATED_AFTER_3_ATTEMPTS", "9", true, 3⟩
    ∧ ∀ (m2 : AttemptMap) (q : String),
        ((trigger_unauthorized_exit_alarm m2 q).1.report = true
          ↔ MAX_UNAUTHORIZED_ATTEMPTS ≤ (m2 q).getD 0 + 1) := by
  have a1 : (trigger_unauthorized_exit_alarm m p).2 p = some 1 := by
    rw [trigger_attempts]
    simp [h]
  have a2 : (trigger_unauthorized_exit_alarm (trigger_unauthorized_exit_alarm m p).2 p).2 p
      = some 2 := by
    rw [trigger_attempts]
    simp [a1]
  refine ⟨?_, ?_, ?_, ?_⟩
  · rw [trigger_alarm_result m p 0 (by rw [h]; rfl)]
    decide
  · rw [trigger_alarm_result _ p 1 (by rw [a1]; rfl)]
    decide
  · rw [trigger_alarm_result _ p 2 (by rw [a2]; rfl)]
    decide
  · intro m2 q
    by_cases hc : MAX_UNAUTHORIZED_ATTEMPTS ≤ (m2 q).getD 0 + 1
    · simp [trigger_unauthorized_exit_alarm, hc]
    · simp only [trigger_unauthorized_exit_alarm, ge_iff_le]
      rw [if_neg hc]
      split <;> simp [hc]

/-- Witness for C5 at the empty counter map. -/
theorem escalation_three_denials_witness :
    (fun _ => (none : Option ℕ)) "RAA111A" = none
    ∧ (trigger_unauthorized_exit_alarm (fun _ => none) "RAA111A").1
        = ⟨"UNAUTHORIZED_EXIT_ATTEMPT", "ALARM_ACTIVATED_GATE_BLOCKED", "2", false, 1⟩ :=
  ⟨rfl, (escalation_three_denials (fun _ => none) "RAA111A" rfl).1⟩

/-- Claim C6 (confirmed): across one exit evaluation the plate's counter is
incremented by exactly one when the exit is denied and deleted exactly
when payment is verified (the only reset path); other plates' counters are
untouched; after a reset the next denial again produces a Standard alert
with count 1. -/
theorem attempt_counter_step (readErr : Bool) (file : Option (List Row)) (m : AttemptMap)
    (p q : String) (hq : q ≠ p) :
    ((exit_evaluation readErr file m p).2 p
        = if is_payment_complete readErr file p then none
          else some ((m p).getD 0 + 1))
    ∧ (exit_evaluation readErr file m p).2 q = m q
    ∧ (trigger_unauthorized_exit_alarm (reset_unauthorized_attempts m p) p).1.attempt_count
        = 1
    ∧ (trigger_unauthorized_exit_alarm (reset_unauthorized_attempts m p) p).1.alert_type
        = "UNAUTHORIZED_EXIT_ATTEMPT" := by
  refine ⟨?_, ?_, ?_, ?_⟩
  · by_cases hp : is_payment_complete readErr file p = true
    · simp [exit_evaluation, hp, reset_unauthorized_attempts]
    · simp [exit_evaluation, hp, trigger_attempts]
  · by_cases hp : is_payment_complete readErr file p = true
    · simp [exit_evaluation, hp, reset_unauthorized_attempts, hq]
    · simp [exit_evaluation, hp, trigger_attempts, hq]
  · simp [trigger_unauthorized_exit_alarm, reset_unauthorized_attempts,
      MAX_UNAUTHORIZED_ATTEMPTS]
  · simp [trigger_unauthorized_exit_alarm, reset_unauthorized_attempts,
      MAX_UNAUTHORIZED_ATTEMPTS]

/-- Witness for C6: denied exit on a missing log, observed from another
plate. -/
theorem attempt_counter_step_witness :
    "RAB222B" ≠ "RAA111A"
    ∧ (exit_evaluation false none (fun _ => none) "RAA111A").2 "RAB222B" = none :=
  ⟨by decide,
    (attempt_counter_step false none (fun _ => none) "RAA111A" "RAB222B" (by decide)).2.1⟩

/-- Claim C9 (confirmed): the exit payment check authorizes exit iff the
Session log holds at least one row of the plate with payment status `'1'`;
in particular a plate with one Paid row and one Pending row is granted
exit (gate opened, `AUTHORIZED` logged) and its attempt counter is reset,
with the Pending session never paid. -/
theorem paid_row_authorizes_exit (rows : List Row) (m : AttemptMap) (p : String)
    (t1 t2 : Option ℚ) (h1 : Row.mk p "1" t1 ∈ rows) (_h2 : Row.mk p "0" t2 ∈ rows) :
    (exit_evaluation false (some rows) m p).1 = ⟨true, "AUTHORIZED", none⟩
    ∧ (exit_evaluation false (some rows) m p).2 p = none
    ∧ (is_payment_complete false (some rows) p = true
        ↔ ∃ row ∈ rows, row.plate = p ∧ row.status = "1") := by
  have hpaid : is_payment_complete false (some rows) p = true := by
    simp [is_payment_complete, List.any_eq_true]
    exact ⟨Row.mk p "1" t1, h1, rfl, rfl⟩
  refine ⟨?_, ?_, ?_⟩
  · simp [exit_evaluation, hpaid]
  · simp [exit_evaluation, hpaid, reset_unauthorized_attempts]
  · simp [is_payment_complete, List.any_eq_true]

/-- Witness for C9: an old Paid row plus a newer Pending row. -/
theorem paid_row_authorizes_exit_witness :
    Row.mk "RAA111A" "1" (some 0)
        ∈ [Row.mk "RAA111A" "1" (some 0), Row.mk "RAA111A" "0" (some 50)]
    ∧ Row.mk "RAA111A" "0" (some 50)
        ∈ [Row.mk "RAA111A" "1" (some 0), Row.mk "RAA111A" "0" (some 50)]
    ∧ (exit_evaluation false
          (some [Row.mk "RAA111A" "1" (some 0), Row.mk "RAA111A" "0" (some 50)])
          (fun _ => none) "RAA111A").1 = ⟨true, "AUTHORIZED", none⟩ :=
  ⟨by decide, by decide,
    (paid_row_authorizes_exit
        [Row.mk "RAA111A" "1" (some 0), Row.mk "RAA111A" "0" (some 50)]
        (fun _ => none) "RAA111A" (some 0) (some 50) (by decide) (by decide)).1⟩

/-- Witness for the amended C3: one 30-minute Pending session, balance 500. -/
theorem payment_success_flips_amended_witness :
    (calculate_charges (some [⟨"RAA111A", "0", some 0⟩]) "RAA111A" 30).2.1 ≠ 0
    ∧ (calculate_charges (some [⟨"RAA111A", "0", some 0⟩]) "RAA111A" 30).1 ≤ 500
    ∧ (process_payment none true (some [⟨"RAA111A", "0", some 0⟩]) "RAA111A" 500 30).1
        = "PAYMENT_SUCCESS" :=
  ⟨by decide, by decide,
    (payment_success_flips_amended [⟨"RAA111A", "0", some 0⟩] "RAA111A" 500 30
        (by decide) (by decide)).1⟩
